import Mathlib

/-!
Shallow embedding of the AI-CMI-Statement-Extractor front-end in Lean 4.

The embedding covers (translated from the TypeScript source):
  - the `StatementRow` record (src/types.ts shape as used throughout);
  - the spreadsheet export `handleDownloadExcel` (src/App.tsx and the
    drag-and-drop shell), including the JS `parseFloat` semantics used on
    decimal-comma strings and the SheetJS cell construction and number
    formatting pass;
  - the file-type gate and loading-state resolution of `processFile`;
  - the extraction client `extractDataFromFile` (geminiService), including
    a JSON parser standing for the host `JSON.parse` and the catch-block
    error mapping.
-/

/-- A journal row as produced by the extraction client (the `StatementRow`
TypeScript interface: six required string fields). -/
structure StatementRow where
  date : String
  compteGeneral : String
  compteTier : String
  libelle : String
  debit : String
  credit : String
deriving DecidableEq, Repr

/- ### JS `parseFloat` model

`parseFloat` skips leading whitespace, then reads the longest prefix of the
form `[+|-] digits [. digits] [e|E [+|-] digits]` and returns its value;
if no digit is read it returns NaN.  We represent a JS number that can be
NaN as `Option ℚ`, with `none` standing for NaN.  (The `Infinity` literal
production of `parseFloat` is not modelled; no claim touches it.) -/

/-- Decimal digits to a natural number, most significant first. -/
def digitsToNat (ds : List Char) : Nat :=
  ds.foldl (fun n c => 10 * n + (c.toNat - 48)) 0

/-- Whitespace skipped by `parseFloat` (and by `JSON.parse`). -/
def skipWs : List Char → List Char
  | c :: cs =>
      if c = ' ' ∨ c = '\t' ∨ c = '\n' ∨ c = '\r' then skipWs cs else c :: cs
  | [] => []

/-- The rational `sign * mant * 10 ^ sh`, built with a single `mkRat` so
that concrete values reduce in the kernel. -/
def decNum (neg : Bool) (mant : Nat) (sh : Int) : ℚ :=
  let m : Int := if neg then -(mant : Int) else (mant : Int)
  if 0 ≤ sh then mkRat (m * (10 : Int) ^ sh.toNat) 1
  else mkRat m ((10 : Nat) ^ (-sh).toNat)

/-- Exponent part read by `parseFloat` after the mantissa: `e`/`E`, an
optional sign, then at least one digit; anything else contributes 0
(the trailing garbage is ignored, as in JS). -/
def expOf (cs : List Char) : Int :=
  match cs with
  | c :: rest =>
      if c = 'e' ∨ c = 'E' then
        match rest with
        | s :: rest2 =>
            if s = '-' then
              (if rest2.takeWhile Char.isDigit = [] then 0
               else -(digitsToNat (rest2.takeWhile Char.isDigit) : Int))
            else if s = '+' then
              (if rest2.takeWhile Char.isDigit = [] then 0
               else (digitsToNat (rest2.takeWhile Char.isDigit) : Int))
            else if s.isDigit then
              (digitsToNat (rest.takeWhile Char.isDigit) : Int)
            else 0
        | [] => 0
      else 0
  | [] => 0

/-- JS `parseFloat` on the scanned character list (whitespace already
skipped by the caller): optional sign, integer digits, optional fraction,
optional exponent; NaN (`none`) when no digit is read. -/
def parseFloatCore (cs : List Char) : Option ℚ :=
  let signed : Bool × List Char :=
    match cs with
    | c :: rest =>
        if c = '-' then (true, rest)
        else if c = '+' then (false, rest)
        else (false, cs)
    | [] => (false, cs)
  let neg := signed.1
  let cs1 := signed.2
  let ip := cs1.takeWhile Char.isDigit
  let r1 := cs1.drop ip.length
  let fracked : List Char × List Char :=
    match r1 with
    | c :: rest =>
        if c = '.' then
          (rest.takeWhile Char.isDigit, rest.drop (rest.takeWhile Char.isDigit).length)
        else ([], r1)
    | [] => ([], r1)
  let fp := fracked.1
  let r2 := fracked.2
  if ip = [] ∧ fp = [] then none
  else
    let mant : Nat := digitsToNat ip * 10 ^ fp.length + digitsToNat fp
    some (decNum neg mant (expOf r2 - (fp.length : Int)))

/-- JS `parseFloat` on a string (`none` = NaN). -/
def parseFloat (s : String) : Option ℚ :=
  parseFloatCore (skipWs s.data)

/- ### Spreadsheet export (`handleDownloadExcel`)

TypeScript:
  'DEBIT': row.debit ? parseFloat(row.debit.replace(/\./g, '').replace(',', '.')) : null
followed by `XLSX.utils.json_to_sheet`, fixed column widths, and a pass
setting `t = 'n'` and `z = '#,##0.00'` on every existing debit/credit cell.
`json_to_sheet` skips `null` values, so an empty debit/credit string yields
no cell at all; a JS number (NaN included) yields a cell of type `n`. -/

/-- `s.replace(/\./g, '')`: remove every dot character. -/
def stripDots (s : String) : String :=
  String.mk (s.data.filter (fun c => c ≠ '.'))

/-- `s.replace(',', '.')` with a string pattern replaces only the first
occurrence of the comma. -/
def replaceFirstComma : List Char → List Char
  | [] => []
  | c :: cs => if c = ',' then '.' :: cs else c :: replaceFirstComma cs

/-- The numeric value placed in a debit/credit cell: `null` (no cell) for
the empty string, otherwise `parseFloat` of the transformed string. -/
def toCellNumber (s : String) : Option (Option ℚ) :=
  if s = "" then none
  else some (parseFloat (String.mk (replaceFirstComma (stripDots s).data)))

/-- A worksheet cell value: a string or a JS number (`none` = NaN). -/
inductive CellVal where
  | s (v : String)
  | n (v : Option ℚ)
deriving DecidableEq, Repr

/-- A SheetJS cell: value, cell type tag (`'s'` or `'n'`), and optional
number-format string `z`. -/
structure Cell where
  v : CellVal
  t : Char
  z : Option String
deriving DecidableEq, Repr

/-- One exported worksheet row; `none` in debit/credit means the cell is
absent (the JS value was `null`, which `json_to_sheet` skips). -/
structure SheetRow where
  date : Cell
  compteGeneral : Cell
  compteTier : Cell
  libelle : Cell
  debit : Option Cell
  credit : Option Cell
deriving DecidableEq, Repr

/-- The display format applied to debit/credit cells. -/
def numFmt : String := "#,##0.00"

/-- `json_to_sheet` on one mapped row: strings become type-`s` cells, JS
numbers (NaN included) become type-`n` cells, `null` produces no cell. -/
def jsonToSheetRow (r : StatementRow) : SheetRow :=
  { date := ⟨CellVal.s r.date, 's', none⟩
    compteGeneral := ⟨CellVal.s r.compteGeneral, 's', none⟩
    compteTier := ⟨CellVal.s r.compteTier, 's', none⟩
    libelle := ⟨CellVal.s r.libelle, 's', none⟩
    debit := (toCellNumber r.debit).map (fun q => ⟨CellVal.n q, 'n', none⟩)
    credit := (toCellNumber r.credit).map (fun q => ⟨CellVal.n q, 'n', none⟩) }

/-- The formatting pass over columns 4 and 5: every existing debit/credit
cell gets `t = 'n'` and `z = '#,##0.00'` (the source's `v !== null` guard
always holds for an existing cell, since `json_to_sheet` never writes a
null-valued cell). -/
def applyNumFmt (row : SheetRow) : SheetRow :=
  { row with
    debit := row.debit.map (fun c => ⟨c.v, 'n', some numFmt⟩)
    credit := row.credit.map (fun c => ⟨c.v, 'n', some numFmt⟩) }

/-- Full export of one journal row. -/
def exportRow (r : StatementRow) : SheetRow :=
  applyNumFmt (jsonToSheetRow r)

/-- The produced workbook: one sheet, its header row (the keys of the first
mapped object, absent when the data array is empty), the data rows, the
fixed column widths, the sheet name and the saved file name. -/
structure Workbook where
  header : List String
  rows : List SheetRow
  cols : List Nat
  sheetName : String
  fileName : String
deriving DecidableEq, Repr

/-- `handleDownloadExcel` on a non-null row array. -/
def handleDownloadExcel (data : List StatementRow) : Workbook :=
  { header :=
      if data = [] then []
      else ["DATE", "COMPTE GENERAL", "COMPTE TIER", "LIBELLE", "DEBIT", "CREDIT"]
    rows := data.map exportRow
    cols := [15, 20, 20, 80, 15, 15]
    sheetName := "CMI Statement"
    fileName := "cmi_statement_data.xlsx" }

/- ### Application shell (`processFile` in the drag-and-drop shell)

TypeScript gate:
  const acceptedTypes = ['application/pdf', 'image/png', 'image/jpeg', 'image/jpg'];
  if (!acceptedTypes.includes(file.type)) { setError(...); return; }
then the FileReader is constructed and `reader.onload` awaits
`extractDataFromFile`; `onload` sets Success exactly when the returned array
is non-empty, and Error otherwise; `onerror` sets the read-failure Error. -/

/-- The declared MIME types the shell accepts. -/
def acceptedTypes : List String :=
  ["application/pdf", "image/png", "image/jpeg", "image/jpg"]

/-- The shell's user-visible states. -/
inductive AppState where
  | idle
  | loading
  | success (rows : List StatementRow)
  | error (msg : String)
deriving DecidableEq, Repr

/-- Outcome of the asynchronous `FileReader` read. -/
inductive ReadOutcome where
  | ok (base64 : String)
  | fail
deriving DecidableEq, Repr

/-- Outcome of the awaited `extractDataFromFile` call, at the type the
shell consumes it (`StatementRow[]`, or a thrown `Error` message). -/
inductive ExtractResult where
  | rows (rs : List StatementRow)
  | threw (msg : String)
deriving DecidableEq, Repr

/-- Error shown when extraction resolves with an empty array. -/
def noDataMsg : String :=
  "No data could be extracted from the document. It might be empty or in an unsupported format."

/-- Error shown when the file read fails. -/
def readFailMsg : String := "Failed to read the file. Please try again."

/-- The `reader.onload` body: Success on a non-empty array, Error otherwise
(the thrown message, or the no-data message for an empty array). -/
def resolveOnload : ExtractResult → AppState
  | .rows rs => if rs.length > 0 then .success rs else .error noDataMsg
  | .threw m => .error m

/-- The state the shell reaches out of Loading, as a function of the read
outcome and the extraction outcome. -/
def loadingTransition (read : ReadOutcome) (ext : ExtractResult) : AppState :=
  match read with
  | .fail => .error readFailMsg
  | .ok _ => resolveOnload ext

/-- Result of `processFile`: either the early rejection (before any read or
model call), or the flow that runs to a final state. -/
inductive ProcessResult where
  | rejected (msg : String)
  | started (final : AppState)
deriving DecidableEq, Repr

/-- The rejection message for an unsupported declared type. -/
def unsupportedMsg (t : String) : String :=
  "Unsupported file type: " ++ t ++ ". Please upload a PDF or image file."

/-- `processFile`, with the asynchronous outcomes passed as oracles. -/
def processFile (fileType : String) (read : ReadOutcome) (ext : ExtractResult) :
    ProcessResult :=
  if fileType ∈ acceptedTypes then .started (loadingTransition read ext)
  else .rejected (unsupportedMsg fileType)

/-- Observable side events of one `processFile` run. -/
inductive FlowEvent where
  | fileRead
  | modelCall
deriving DecidableEq, Repr

/-- The events a `processFile` run performs: nothing on rejection; a file
read always once past the gate; the model call only when the read
succeeds. -/
def processFileEvents (fileType : String) (read : ReadOutcome) : List FlowEvent :=
  if fileType ∈ acceptedTypes then
    match read with
    | .fail => [FlowEvent.fileRead]
    | .ok _ => [FlowEvent.fileRead, FlowEvent.modelCall]
  else []

/- ### Extraction client (`extractDataFromFile`, geminiService)

The function builds the prompt, performs exactly one
`ai.models.generateContent` request inside a `try`, trims the response
text, throws on empty text, otherwise `JSON.parse`s it and returns the
parsed value with no structural validation.  The `catch` maps a caught
error whose message mentions "json" (case-insensitively) to the
invalid-format message, and wraps any other message generically. -/

/-- A JSON value as produced by `JSON.parse`. -/
inductive JsonVal where
  | null
  | bool (b : Bool)
  | num (q : ℚ)
  | str (s : String)
  | arr (xs : List JsonVal)
  | obj (fields : List (String × JsonVal))

/-- The double-quote character. -/
def chQuote : Char := Char.ofNat 34

/-- The backslash character. -/
def chBackslash : Char := Char.ofNat 92

/-- The left-brace character. -/
def chLBrace : Char := Char.ofNat 123

/-- The right-brace character. -/
def chRBrace : Char := Char.ofNat 125

/-- Value of a single-character escape in a JSON string literal. -/
def escChar (e : Char) : Option Char :=
  if e = chQuote then some chQuote
  else if e = chBackslash then some chBackslash
  else if e = '/' then some '/'
  else if e = 'n' then some '\n'
  else if e = 't' then some '\t'
  else if e = 'r' then some '\r'
  else if e = 'b' then some (Char.ofNat 8)
  else if e = 'f' then some (Char.ofNat 12)
  else none

/-- Hexadecimal digit value. -/
def hexVal (c : Char) : Option Nat :=
  if c.isDigit then some (c.toNat - 48)
  else if 'a' ≤ c ∧ c ≤ 'f' then some (c.toNat - 87)
  else if 'A' ≤ c ∧ c ≤ 'F' then some (c.toNat - 55)
  else none

/-- JSON string-literal body (after the opening quote): returns the decoded
characters and the remaining input, or `none` on a syntax error.  Fuel
bounds the recursion; the caller supplies more fuel than characters. -/
def parseJStringChars : Nat → List Char → Option (List Char × List Char)
  | 0, _ => none
  | _ + 1, [] => none
  | fuel + 1, c :: cs =>
      if c = chQuote then some ([], cs)
      else if c = chBackslash then
        match cs with
        | [] => none
        | e :: cs2 =>
            if e = 'u' then
              match cs2 with
              | h1 :: h2 :: h3 :: h4 :: cs3 =>
                  match hexVal h1, hexVal h2, hexVal h3, hexVal h4 with
                  | some a, some b, some c3, some d =>
                      (parseJStringChars fuel cs3).map
                        (fun p => (Char.ofNat (4096 * a + 256 * b + 16 * c3 + d) :: p.1, p.2))
                  | _, _, _, _ => none
              | _ => none
            else
              match escChar e with
              | some ce =>
                  (parseJStringChars fuel cs2).map (fun p => (ce :: p.1, p.2))
              | none => none
      else if c.toNat < 32 then none
      else (parseJStringChars fuel cs).map (fun p => (c :: p.1, p.2))

/-- JSON number (strict grammar: optional minus, no leading zeros, fraction
and exponent each need at least one digit). -/
def parseJNumber (cs : List Char) : Option (ℚ × List Char) :=
  let signed : Bool × List Char :=
    match cs with
    | c :: rest => if c = '-' then (true, rest) else (false, cs)
    | [] => (false, cs)
  let neg := signed.1
  let cs1 := signed.2
  let ip := cs1.takeWhile Char.isDigit
  if ip = [] then none
  else if 1 < ip.length ∧ ip.headD '0' = '0' then none
  else
    let r1 := cs1.drop ip.length
    let fracked : Option (List Char × List Char) :=
      match r1 with
      | c :: rest =>
          if c = '.' then
            let fp := rest.takeWhile Char.isDigit
            if fp = [] then none else some (fp, rest.drop fp.length)
          else some ([], r1)
      | [] => some ([], r1)
    match fracked with
    | none => none
    | some (fp, r2) =>
        let exped : Option (Int × List Char) :=
          match r2 with
          | c :: rest =>
              if c = 'e' ∨ c = 'E' then
                match rest with
                | s :: rest2 =>
                    if s = '-' then
                      let ed := rest2.takeWhile Char.isDigit
                      if ed = [] then none
                      else some (-(digitsToNat ed : Int), rest2.drop ed.length)
                    else if s = '+' then
                      let ed := rest2.takeWhile Char.isDigit
                      if ed = [] then none
                      else some ((digitsToNat ed : Int), rest2.drop ed.length)
                    else
                      let ed := rest.takeWhile Char.isDigit
                      if ed = [] then none
                      else some ((digitsToNat ed : Int), rest.drop ed.length)
                | [] => none
              else some (0, r2)
          | [] => some (0, r2)
        match exped with
        | none => none
        | some (e, r3) =>
            let mant : Nat := digitsToNat ip * 10 ^ fp.length + digitsToNat fp
            some (decNum neg mant (e - (fp.length : Int)), r3)

mutual

/-- JSON value parser (recursive descent, fuel-bounded). -/
def parseJValue : Nat → List Char → Option (JsonVal × List Char)
  | 0, _ => none
  | fuel + 1, cs =>
      match skipWs cs with
      | [] => none
      | c :: rest =>
          if c = chQuote then
            (parseJStringChars fuel rest).map (fun p => (JsonVal.str (String.mk p.1), p.2))
          else if c = '[' then
            match skipWs rest with
            | c2 :: rest2 =>
                if c2 = ']' then some (JsonVal.arr [], rest2)
                else
                  (parseJElems fuel (skipWs rest)).map (fun p => (JsonVal.arr p.1, p.2))
            | [] => none
          else if c = chLBrace then
            match skipWs rest with
            | c2 :: rest2 =>
                if c2 = chRBrace then some (JsonVal.obj [], rest2)
                else
                  (parseJMembers fuel (skipWs rest)).map (fun p => (JsonVal.obj p.1, p.2))
            | [] => none
          else if ("true".data).isPrefixOf (c :: rest) then
            some (JsonVal.bool true, (c :: rest).drop 4)
          else if ("false".data).isPrefixOf (c :: rest) then
            some (JsonVal.bool false, (c :: rest).drop 5)
          else if ("null".data).isPrefixOf (c :: rest) then
            some (JsonVal.null, (c :: rest).drop 4)
          else if c = '-' ∨ c.isDigit then
            (parseJNumber (c :: rest)).map (fun p => (JsonVal.num p.1, p.2))
          else none

/-- Comma-separated array elements, up to the closing bracket. -/
def parseJElems : Nat → List Char → Option (List JsonVal × List Char)
  | 0, _ => none
  | fuel + 1, cs =>
      match parseJValue fuel cs with
      | none => none
      | some (v, rest) =>
          match skipWs rest with
          | c :: rest2 =>
              if c = ',' then
                (parseJElems fuel rest2).map (fun p => (v :: p.1, p.2))
              else if c = ']' then some ([v], rest2)
              else none
          | [] => none

/-- Comma-separated object members, up to the closing brace. -/
def parseJMembers : Nat → List Char → Option (List (String × JsonVal) × List Char)
  | 0, _ => none
  | fuel + 1, cs =>
      match skipWs cs with
      | c :: rest =>
          if c = chQuote then
            match parseJStringChars fuel rest with
            | none => none
            | some (key, rest2) =>
                match skipWs rest2 with
                | c2 :: rest3 =>
                    if c2 = ':' then
                      match parseJValue fuel rest3 with
                      | none => none
                      | some (v, rest4) =>
                          match skipWs rest4 with
                          | c3 :: rest5 =>
                              if c3 = ',' then
                                (parseJMembers fuel rest5).map
                                  (fun p => ((String.mk key, v) :: p.1, p.2))
                              else if c3 = chRBrace then
                                some ([(String.mk key, v)], rest5)
                              else none
                          | [] => none
                    else none
                | [] => none
          else none
      | [] => none

end

/-- The SyntaxError message produced by the host `JSON.parse` on invalid
input; every JS engine's message mentions "JSON" (for example V8 emits
"Unexpected token ... is not valid JSON"). -/
def jsonParseErrMsg : String := "Unexpected token: the input is not valid JSON"

/-- `JSON.parse`: parse one value, allow surrounding whitespace, reject
trailing input. -/
def jsonParse (s : String) : Except String JsonVal :=
  match parseJValue (2 * s.data.length + 4) s.data with
  | some (v, rest) =>
      if skipWs rest = [] then Except.ok v else Except.error jsonParseErrMsg
  | none => Except.error jsonParseErrMsg

/-- Contiguous-sublist test on character lists. -/
def infixOf (pat : List Char) : List Char → Bool
  | [] => pat.isPrefixOf []
  | c :: cs => pat.isPrefixOf (c :: cs) || infixOf pat cs

/-- `m.toLowerCase().includes('json')`. -/
def mentionsJson (m : String) : Bool :=
  infixOf "json".data (m.data.map Char.toLower)

/-- Message of the error thrown on an empty trimmed response. -/
def aiEmptyMsg : String :=
  "The AI returned an empty response. The document might be unreadable or not a CMI statement."

/-- Message thrown for a caught error mentioning "json". -/
def aiInvalidFormatMsg : String :=
  "The AI returned an invalid format. Please try a clearer image or a different file."

/-- The catch block: an error message mentioning "json" (case-insensitive)
becomes the invalid-format message, anything else is wrapped generically. -/
def wrapCaught (m : String) : String :=
  if mentionsJson m then aiInvalidFormatMsg
  else "An error occurred while processing the statement: " ++ m

/-- Outcome of the single `generateContent` request: the response text, or
a thrown transport/service error. -/
inductive ModelOutcome where
  | success (text : String)
  | failure (errMsg : String)

/-- An observable event of the extraction client. -/
inductive GenEvent where
  | request
deriving DecidableEq, Repr

/-- JS `String.prototype.trim`: strip leading and trailing whitespace. -/
def jsTrim (s : String) : String :=
  String.mk ((skipWs (skipWs s.data).reverse).reverse)

/-- Response handling of `extractDataFromFile`: trim, throw on empty,
`JSON.parse`, return the parsed value unchanged; every throw lands in the
catch block, which rewrites the message via `wrapCaught`. -/
def runExtract (text : String) : Except String JsonVal :=
  if jsTrim text = "" then Except.error (wrapCaught aiEmptyMsg)
  else
    match jsonParse (jsTrim text) with
    | Except.ok v => Except.ok v
    | Except.error m => Except.error (wrapCaught m)

/-- `extractDataFromFile`: the emitted request events paired with the
returned value (`Except.error` models the function throwing). -/
def extractDataFromFile (o : ModelOutcome) : List GenEvent × Except String JsonVal :=
  ([GenEvent.request],
    match o with
    | .success t => runExtract t
    | .failure m => Except.error (wrapCaught m))

/-- Does a JSON value have string field `k`? -/
def hasStrField (fs : List (String × JsonVal)) (k : String) : Bool :=
  fs.any (fun p =>
    (p.1 == k) && match p.2 with
                        | JsonVal.str _ => true
                        | _ => false)

/-- Is a JSON value an object with the six required string fields of a
journal row? -/
def isRowObj : JsonVal → Bool
  | JsonVal.obj fs =>
      hasStrField fs "date" && hasStrField fs "compteGeneral" &&
      hasStrField fs "compteTier" && hasStrField fs "libelle" &&
      hasStrField fs "debit" && hasStrField fs "credit"
  | _ => false

/-- Is a JSON value an array of well-formed journal rows? -/
def isWellFormedRowArray : JsonVal → Bool
  | JsonVal.arr xs => xs.all isRowObj
  | _ => false

/- ### Helper lemmas on the export -/

/-- The exported debit cell depends only on the row's debit string. -/
theorem exportRow_debit (r : StatementRow) :
    (exportRow r).debit =
      (toCellNumber r.debit).map (fun q => ⟨CellVal.n q, 'n', some numFmt⟩) := by
  simp only [exportRow, applyNumFmt, jsonToSheetRow, Option.map_map]
  rfl

/-- The exported credit cell depends only on the row's credit string. -/
theorem exportRow_credit (r : StatementRow) :
    (exportRow r).credit =
      (toCellNumber r.credit).map (fun q => ⟨CellVal.n q, 'n', some numFmt⟩) := by
  simp only [exportRow, applyNumFmt, jsonToSheetRow, Option.map_map]
  rfl

/-- The only error message `jsonParse` ever produces is the fixed
SyntaxError message. -/
theorem jsonParse_error_msg (s e : String) (h : jsonParse s = Except.error e) :
    e = jsonParseErrMsg := by
  unfold jsonParse at h
  cases hp : parseJValue (2 * s.data.length + 4) s.data with
  | none =>
      rw [hp] at h
      simp at h
      exact h.symm
  | some p =>
      obtain ⟨v, rest⟩ := p
      rw [hp] at h
      by_cases hr : skipWs rest = []
      · simp [hr] at h
      · simp [hr] at h
        exact h.symm

/- ### Claim theorems -/

/-- C1 (counterexample): for the row whose debit string is the
space-grouped value "1 234,56", the exported numeric cell does not equal
1234.56: the export only strips dot characters, so `parseFloat` stops at
the space and the cell holds 1. -/
theorem C1_counterexample :
    (exportRow ⟨"01/01/2024", "34210000", "CMI12345", "TOTAL REMISE", "1 234,56", ""⟩).debit
        = some ⟨CellVal.n (some 1), 'n', some numFmt⟩ ∧
    (1 : ℚ) ≠ 123456 / 100 := by
  constructor
  · decide
  · norm_num

/-- C1 (amended): for every journal row whose debit string is the
dot-grouped decimal-comma value "1.234,56", the export strips the dot
thousands separators and converts the comma to a decimal point, so the
exported cell is numeric with value exactly 1234.56 and carries the
two-decimal thousands-grouping display format. -/
theorem C1_dot_grouped_roundtrip (r : StatementRow) (h : r.debit = "1.234,56") :
    (exportRow r).debit =
      some ⟨CellVal.n (some ((123456 : ℚ) / 100)), 'n', some numFmt⟩ := by
  have hq : (mkRat 123456 100 : ℚ) = (123456 : ℚ) / 100 := by
    rw [Rat.mkRat_eq_div]
    norm_num
  rw [exportRow_debit, h,
    show toCellNumber "1.234,56" = some (some (mkRat 123456 100)) from by decide]
  simp [hq]

/-- C1 witness: the amended round-trip at a concrete row. -/
theorem C1_dot_grouped_roundtrip_witness :
    (exportRow ⟨"01/01/2024", "34210000", "CMI12345", "TOTAL REMISE", "1.234,56", ""⟩).debit =
      some ⟨CellVal.n (some ((123456 : ℚ) / 100)), 'n', some numFmt⟩ :=
  C1_dot_grouped_roundtrip _ rfl

/-- C6: an empty debit (or credit) string exports as an absent cell, not
zero, and the numeric display format is applied exactly to the cells whose
source string is non-empty. -/
theorem C6_empty_string_empty_cell (r : StatementRow) :
    (r.debit = "" → (exportRow r).debit = none) ∧
    (r.credit = "" → (exportRow r).credit = none) ∧
    (∀ c, (exportRow r).debit = some c → r.debit ≠ "" ∧ c.t = 'n' ∧ c.z = some numFmt) ∧
    (∀ c, (exportRow r).credit = some c → r.credit ≠ "" ∧ c.t = 'n' ∧ c.z = some numFmt) := by
  refine ⟨?_, ?_, ?_, ?_⟩
  · intro h
    rw [exportRow_debit]
    simp [toCellNumber, h]
  · intro h
    rw [exportRow_credit]
    simp [toCellNumber, h]
  · intro c hc
    rw [exportRow_debit] at hc
    by_cases h : r.debit = ""
    · rw [h] at hc
      simp [toCellNumber] at hc
    · simp only [toCellNumber, if_neg h, Option.map_some'] at hc
      simp at hc
      exact ⟨h, by rw [← hc], by rw [← hc]⟩
  · intro c hc
    rw [exportRow_credit] at hc
    by_cases h : r.credit = ""
    · rw [h] at hc
      simp [toCellNumber] at hc
    · simp only [toCellNumber, if_neg h, Option.map_some'] at hc
      simp at hc
      exact ⟨h, by rw [← hc], by rw [← hc]⟩

/-- C6 witness: both cells of a row with empty debit and credit are
absent, and a non-empty debit yields a formatted cell. -/
theorem C6_empty_string_empty_cell_witness :
    (exportRow ⟨"d", "g", "t", "l", "", ""⟩).debit = none ∧
    (exportRow ⟨"d", "g", "t", "l", "", ""⟩).credit = none :=
  ⟨(C6_empty_string_empty_cell _).1 rfl, (C6_empty_string_empty_cell _).2.1 rfl⟩

/-- C8: for every non-empty row array the export produces one sheet whose
header row is exactly DATE, COMPTE GENERAL, COMPTE TIER, LIBELLE, DEBIT,
CREDIT, whose column widths are 15/20/20/80/15/15 character units, whose
sheet is named "CMI Statement" and whose file name is fixed. -/
theorem C8_workbook_shape (data : List StatementRow) (h : data ≠ []) :
    (handleDownloadExcel data).header =
        ["DATE", "COMPTE GENERAL", "COMPTE TIER", "LIBELLE", "DEBIT", "CREDIT"] ∧
    (handleDownloadExcel data).cols = [15, 20, 20, 80, 15, 15] ∧
    (handleDownloadExcel data).sheetName = "CMI Statement" ∧
    (handleDownloadExcel data).fileName = "cmi_statement_data.xlsx" := by
  refine ⟨?_, rfl, rfl, rfl⟩
  simp [handleDownloadExcel, h]

/-- C8 witness: the workbook shape at a concrete one-row array. -/
theorem C8_workbook_shape_witness :
    (handleDownloadExcel [⟨"d", "g", "t", "l", "", ""⟩]).header =
        ["DATE", "COMPTE GENERAL", "COMPTE TIER", "LIBELLE", "DEBIT", "CREDIT"] ∧
    (handleDownloadExcel [⟨"d", "g", "t", "l", "", ""⟩]).cols = [15, 20, 20, 80, 15, 15] ∧
    (handleDownloadExcel [⟨"d", "g", "t", "l", "", ""⟩]).sheetName = "CMI Statement" ∧
    (handleDownloadExcel [⟨"d", "g", "t", "l", "", ""⟩]).fileName = "cmi_statement_data.xlsx" :=
  C8_workbook_shape _ (by simp)

/-- C10: a non-empty non-numeric debit string such as "abc" does not make
the export fail or leave the cell empty: the cell is present, holds NaN
(`CellVal.n none`), and is still marked numeric with the two-decimal
display format. -/
theorem C10_nan_cell_formatted :
    (exportRow ⟨"01/01/2024", "61740000", "", "COMMISSIONS HT", "abc", ""⟩).debit =
      some ⟨CellVal.n none, 'n', some numFmt⟩ := by
  decide

/-- C2: for every file whose declared MIME type is outside the shell's
allow-list, `processFile` rejects with the user-facing unsupported-type
error and performs no file read and no model call. -/
theorem C2_unsupported_type_rejected (t : String) (read : ReadOutcome)
    (ext : ExtractResult) (h : t ∉ acceptedTypes) :
    processFile t read ext = ProcessResult.rejected (unsupportedMsg t) ∧
    processFileEvents t read = [] := by
  constructor <;> simp [processFile, processFileEvents, h]

/-- C2 witness: a text/plain file is rejected with no read and no call. -/
theorem C2_unsupported_type_rejected_witness :
    processFile "text/plain" ReadOutcome.fail (ExtractResult.rows []) =
        ProcessResult.rejected (unsupportedMsg "text/plain") ∧
    processFileEvents "text/plain" ReadOutcome.fail = [] :=
  C2_unsupported_type_rejected "text/plain" ReadOutcome.fail (ExtractResult.rows [])
    (by decide)

/-- C5: out of Loading, the shell reaches Success(rows) exactly when the
read succeeded and extraction resolved with that non-empty row array; it
never returns to Idle or Loading; and in every non-Success outcome it
reaches Error with some message. -/
theorem C5_loading_transitions (read : ReadOutcome) (ext : ExtractResult) :
    (∀ rs, loadingTransition read ext = AppState.success rs ↔
        ((∃ b, read = ReadOutcome.ok b) ∧ ext = ExtractResult.rows rs ∧ rs ≠ [])) ∧
    loadingTransition read ext ≠ AppState.idle ∧
    loadingTransition read ext ≠ AppState.loading ∧
    ((∀ rs, loadingTransition read ext ≠ AppState.success rs) →
        ∃ m, loadingTransition read ext = AppState.error m) := by
  cases read with
  | fail =>
      refine ⟨?_, by simp [loadingTransition], by simp [loadingTransition], ?_⟩
      · intro rs
        simp [loadingTransition]
      · intro _
        exact ⟨readFailMsg, rfl⟩
  | ok b =>
      cases ext with
      | threw m =>
          refine ⟨?_, by simp [loadingTransition, resolveOnload],
            by simp [loadingTransition, resolveOnload], ?_⟩
          · intro rs
            simp [loadingTransition, resolveOnload]
          · intro _
            exact ⟨m, rfl⟩
      | rows rs0 =>
          by_cases h0 : rs0.length > 0
          · have hne : rs0 ≠ [] := by
              intro hnil
              rw [hnil] at h0
              simp at h0
            refine ⟨?_, by simp [loadingTransition, resolveOnload, h0],
              by simp [loadingTransition, resolveOnload, h0], ?_⟩
            · intro rs
              constructor
              · intro he
                simp [loadingTransition, resolveOnload, h0] at he
                subst he
                exact ⟨⟨b, rfl⟩, rfl, hne⟩
              · rintro ⟨_, hrows, _⟩
                injection hrows with h2
                subst h2
                simp [loadingTransition, resolveOnload, h0]
            · intro hno
              exact absurd (by simp [loadingTransition, resolveOnload, h0] :
                loadingTransition (ReadOutcome.ok b) (ExtractResult.rows rs0) =
                  AppState.success rs0) (hno rs0)
          · have hnil : rs0 = [] := by
              cases rs0 with
              | nil => rfl
              | cons a l => simp at h0
            subst hnil
            refine ⟨?_, by simp [loadingTransition, resolveOnload],
              by simp [loadingTransition, resolveOnload], ?_⟩
            · intro rs
              simp [loadingTransition, resolveOnload]
            · intro _
              exact ⟨noDataMsg, by simp [loadingTransition, resolveOnload]⟩

/-- C5 witness: a successful read with a one-row extraction result lands in
Success of that array. -/
theorem C5_loading_transitions_witness :
    loadingTransition (ReadOutcome.ok "b64")
        (ExtractResult.rows [⟨"d", "g", "t", "l", "1", ""⟩]) =
      AppState.success [⟨"d", "g", "t", "l", "1", ""⟩] :=
  ((C5_loading_transitions (ReadOutcome.ok "b64")
      (ExtractResult.rows [⟨"d", "g", "t", "l", "1", ""⟩])).1 _).mpr
    ⟨⟨"b64", rfl⟩, rfl, by simp⟩

/-- C3: whenever the model response text trims to the empty string,
`extractDataFromFile` throws (returns no rows) and the surfaced message
reports the document as unreadable / not a recognized CMI statement
(wrapped by the generic catch prefix). -/
theorem C3_empty_response_error (text : String) (h : jsTrim text = "") :
    (extractDataFromFile (ModelOutcome.success text)).2 =
      Except.error ("An error occurred while processing the statement: " ++ aiEmptyMsg) := by
  have hm : mentionsJson aiEmptyMsg = false := rfl
  simp [extractDataFromFile, runExtract, h, wrapCaught, hm]

/-- C3 witness: the literal empty response. -/
theorem C3_empty_response_error_witness :
    (extractDataFromFile (ModelOutcome.success "")).2 =
      Except.error ("An error occurred while processing the statement: " ++ aiEmptyMsg) :=
  C3_empty_response_error "" rfl

/-- C4: whenever the trimmed response text is non-empty but not valid
JSON, `extractDataFromFile` throws the invalid-format message with its
retry suggestion. -/
theorem C4_invalid_json_error (text e : String) (hne : jsTrim text ≠ "")
    (h : jsonParse (jsTrim text) = Except.error e) :
    (extractDataFromFile (ModelOutcome.success text)).2 =
      Except.error aiInvalidFormatMsg := by
  have he : e = jsonParseErrMsg := jsonParse_error_msg _ _ h
  subst he
  have hm : mentionsJson jsonParseErrMsg = true := rfl
  simp [extractDataFromFile, runExtract, hne, h, wrapCaught, hm]

/-- C4 witness: the response text "not json". -/
theorem C4_invalid_json_error_witness :
    (extractDataFromFile (ModelOutcome.success "not json")).2 =
      Except.error aiInvalidFormatMsg :=
  C4_invalid_json_error "not json" jsonParseErrMsg (by decide) rfl

/-- C7: every invocation of `extractDataFromFile` performs exactly one
outbound model request, whatever the outcome; failures surface as a single
thrown error with no further request. -/
theorem C7_single_request (o : ModelOutcome) :
    (extractDataFromFile o).1 = [GenEvent.request] ∧
    (extractDataFromFile o).1.count GenEvent.request = 1 :=
  ⟨rfl, rfl⟩

/-- C9: a response whose trimmed text parses as JSON is returned by
`extractDataFromFile` unchanged, with no structural validation; in
particular the bare-number response "42" succeeds although it is not an
array of well-formed journal rows. -/
theorem C9_no_validation :
    (∀ text v, jsonParse (jsTrim text) = Except.ok v →
        (extractDataFromFile (ModelOutcome.success text)).2 = Except.ok v) ∧
    (extractDataFromFile (ModelOutcome.success "42")).2 = Except.ok (JsonVal.num 42) ∧
    isWellFormedRowArray (JsonVal.num 42) = false := by
  refine ⟨?_, rfl, rfl⟩
  intro text v h
  by_cases hne : jsTrim text = ""
  · rw [hne] at h
    have h0 : jsonParse "" = Except.error jsonParseErrMsg := rfl
    rw [h0] at h
    exact Except.noConfusion h
  · simp [extractDataFromFile, runExtract, hne, h]

/-- C9 witness: the padded bare-number response. -/
theorem C9_no_validation_witness :
    (extractDataFromFile (ModelOutcome.success " 42 ")).2 = Except.ok (JsonVal.num 42) :=
  C9_no_validation.1 " 42 " (JsonVal.num 42) rfl
